import Mathlib

/-!
Verification development for the kmyth SGX demo TLS utility layer
(`src/sgx/demo/src/util/demo_tls_util.c`).

The C code is shallowly embedded here:

* The `TLSPeer` and `TLSMessage` structs (declared in `demo_tls_util.h`,
  which is not among the provided sources) are modelled from their use in
  the `.c` file and from the spec: pointer fields become `Option` values
  (`none` models `NULL`), handle pointers become abstract `Nat` ids, and
  the `uint16_t` size field becomes a `Nat` kept below `2 ^ 16`.
* `read` on a byte-stream transport is modelled as taking a prefix of the
  remaining stream: a `read(fd, buf, n)` call against a stream `s` returns
  `s.take n` (so it returns `0` bytes exactly when the peer has closed and
  nothing is buffered, and a short count when fewer than `n` bytes remain).
* `write` on the established transport is modelled as appending bytes to
  an output trace and reporting the full count (blocking-socket model).
* OpenSSL calls are modelled by an environment record that fixes, for one
  invocation, which call succeeds and which handle each creation call
  returns; each embedded function also returns the ordered trace of the
  external calls it actually performed, so "no network I/O happened" and
  "the default trust store was not consulted" are statable.

Every embedded function returns its C `int` result (0 / -1, or the
`EXIT_SUCCESS` / `EXIT_FAILURE` pair) together with the updated state; the
distinct failure branches of the framing functions, which the C code tells
apart only by their distinct `kmyth_log` diagnostic strings, are modelled
as distinct result constructors with a common nonzero return code.
-/

namespace KmythTls

/-- Modelled from the spec: `KMYTH_TLS_MAX_MSG_SIZE` is defined in
`demo_tls_util.h`, which is not part of the provided sources.  The spec
fixes only that it is "a fixed protocol constant" bounding the payload of
one framed message, with the length carried in an unsigned big-endian
16-bit header (hence `0 < KMYTH_TLS_MAX_MSG_SIZE < 2 ^ 16`).  All claim
theorems below depend only on those bounds, not on the particular value. -/
def KMYTH_TLS_MAX_MSG_SIZE : Nat := 16384

theorem max_msg_size_pos : 0 < KMYTH_TLS_MAX_MSG_SIZE := by decide

theorem max_msg_size_lt_two_pow_16 : KMYTH_TLS_MAX_MSG_SIZE < 2 ^ 16 := by decide

/-- The message header struct: a single unsigned 16-bit `msg_size` field
(`sizeof(msg->hdr) = 2` in the C code). -/
structure TLSHdr where
  msg_size : Nat
deriving DecidableEq, Repr

/-- One framed application message: header plus heap-owned body bytes.
The body is a byte list (each entry a `uint8_t` value `< 256`). -/
structure TLSMessage where
  hdr : TLSHdr
  body : List Nat
deriving DecidableEq, Repr

/-- The aggregate peer connection object (struct `TLSPeer`), modelled from
its use in `demo_tls_util.c` and the spec's data model: `isClient` is the
role flag (`true` = Client, `false` = Server), `bio` / `ctx` are the
transport and context handles (`none` = `NULL`), and the five string
fields are the owned endpoint / path strings. -/
structure TLSPeer where
  isClient : Bool
  bio : Option Nat
  ctx : Option Nat
  host : Option String
  port : Option String
  ca_cert_path : Option String
  local_key_path : Option String
  local_cert_path : Option String
deriving DecidableEq, Repr

/-- `demo_tls_init(clientMode, tlsconn)`: `secure_memset` zeroes every
field, then the role flag is set to `clientMode`.  Modelled as producing
the overwritten struct value. -/
def demo_tls_init (clientMode : Bool) : TLSPeer :=
  { isClient := clientMode
    bio := none
    ctx := none
    host := none
    port := none
    ca_cert_path := none
    local_key_path := none
    local_cert_path := none }

/-- One resource released by `demo_tls_cleanup`, tagged by which field it
was freed from. -/
inductive Freed where
  | bio (h : Nat)
  | ctx (h : Nat)
  | host (s : String)
  | port (s : String)
  | caCert (s : String)
  | localKey (s : String)
  | localCert (s : String)
deriving DecidableEq, Repr

/-- `demo_tls_cleanup(tlsconn)`: frees `bio` (via `BIO_free_all`), `ctx`
(via `SSL_CTX_free`), then the five owned strings, each only when
non-`NULL`, and finally calls `demo_tls_init(false, tlsconn)`.  Returns
the ordered list of released resources together with the struct's final
value. -/
def demo_tls_cleanup (p : TLSPeer) : List Freed × TLSPeer :=
  let f1 := match p.bio with | some h => [Freed.bio h] | none => []
  let f2 := match p.ctx with | some h => [Freed.ctx h] | none => []
  let f3 := match p.host with | some s => [Freed.host s] | none => []
  let f4 := match p.port with | some s => [Freed.port s] | none => []
  let f5 := match p.ca_cert_path with | some s => [Freed.caCert s] | none => []
  let f6 := match p.local_key_path with | some s => [Freed.localKey s] | none => []
  let f7 := match p.local_cert_path with | some s => [Freed.localCert s] | none => []
  (f1 ++ f2 ++ f3 ++ f4 ++ f5 ++ f6 ++ f7, demo_tls_init false)

/-- Result of `demo_tls_recv_msg`.  The C function returns `EXIT_FAILURE`
on every error path; the branches are distinguished by their distinct
`kmyth_log` diagnostics, modelled here as distinct constructors:
`connectionClosed` ↔ "TLS connection is closed" (0 bytes read),
`shortHeaderRead` ↔ "read invalid number of TLS message header bytes",
`messageTooLarge` ↔ "length in TLS message header exceeds limit",
`allocFailed` ↔ "failed to allocate received message buffer",
`shortBodyRead` ↔ "read incorrect number of TLS message bytes". -/
inductive RecvResult where
  | ok
  | connectionClosed
  | shortHeaderRead
  | messageTooLarge
  | allocFailed
  | shortBodyRead
deriving DecidableEq, Repr

/-- The `int` value the C function actually returns for a given branch:
`EXIT_SUCCESS` (0) for `ok`, `EXIT_FAILURE` (1) otherwise. -/
def RecvResult.retcode : RecvResult → Nat
  | .ok => 0
  | _ => 1

/-- One observable transport / heap action performed by
`demo_tls_recv_msg`: a header read of `want` bytes returning `got`, a
body-buffer allocation of `n` bytes, or a body read. -/
inductive RecvEvent where
  | readHdr (want got : Nat)
  | allocBody (n : Nat)
  | readBody (want got : Nat)
deriving DecidableEq, Repr

/-- `demo_tls_recv_msg(socket_fd, msg)` embedded against a byte stream
`s` (the bytes still deliverable before the peer's close).  Mirrors the C
control flow line by line:

1. `read(fd, hdr_buf, 2)` returns `s.take 2`; `0` bytes is the
   closed-connection failure, any other count `≠ 2` the short-header
   failure.
2. `msg->hdr.msg_size = hdr_buf[0] << 8; msg->hdr.msg_size += hdr_buf[1]`
   (big-endian decode; the buffer holds `uint8_t`s, hence the `% 256`).
   This mutates `msg` before any further check.
3. Sizes above `KMYTH_TLS_MAX_MSG_SIZE` fail before any allocation or
   body read.
4. `calloc(msg_size, 1)` yields a zero-filled buffer which becomes
   `msg->body`; `read(fd, body, msg_size)` then fills its first
   `(s1.take msg_size).length` bytes.  A `0`-byte read is the
   closed-connection failure, any other short count the short-body
   failure.

Returns (result, updated `msg`, remaining stream, event trace).  The
`calloc` itself is modelled as succeeding (`allocFailed` is the branch the
C code takes when it returns `NULL`, which the stream model cannot
trigger). -/
def demo_tls_recv_msg (msg : TLSMessage) (s : List Nat) :
    RecvResult × TLSMessage × List Nat × List RecvEvent :=
  let hdr_buf := s.take 2
  let s1 := s.drop 2
  let e1 := RecvEvent.readHdr 2 hdr_buf.length
  if hdr_buf.length = 0 then
    (.connectionClosed, msg, s1, [e1])
  else if hdr_buf.length ≠ 2 then
    (.shortHeaderRead, msg, s1, [e1])
  else
    let sz := (hdr_buf.headD 0 % 256) * 256 + hdr_buf.getD 1 0 % 256
    let msg1 : TLSMessage := { msg with hdr := ⟨sz⟩ }
    if sz > KMYTH_TLS_MAX_MSG_SIZE then
      (.messageTooLarge, msg1, s1, [e1])
    else
      let r := s1.take sz
      let s2 := s1.drop sz
      let body := r ++ List.replicate (sz - r.length) 0
      let msg2 : TLSMessage := { msg1 with body := body }
      let evs := [e1, RecvEvent.allocBody sz, RecvEvent.readBody sz r.length]
      if r.length = 0 then
        (.connectionClosed, msg2, s2, evs)
      else if r.length ≠ sz then
        (.shortBodyRead, msg2, s2, evs)
      else
        (.ok, msg2, s2, evs)

/-- Result of `demo_tls_send_msg`; as with `RecvResult`, the C function
returns a bare `EXIT_FAILURE`, with the branch identified by its log
message: `invalidMessageSize` ↔ "invalid TLS message size",
`headerWriteFailed` ↔ "sending TLS message header failed",
`bodyWriteFailed` ↔ "sending TLS message payload failed". -/
inductive SendResult where
  | ok
  | invalidMessageSize
  | headerWriteFailed
  | bodyWriteFailed
deriving DecidableEq, Repr

/-- The `int` value the C function returns for a given branch. -/
def SendResult.retcode : SendResult → Nat
  | .ok => 0
  | _ => 1

/-- The two bytes `htons(v)` leaves in memory for a `uint16_t` value `v`:
the big-endian byte pair. -/
def htons_bytes (v : Nat) : List Nat :=
  [v / 256 % 256, v % 256]

/-- Outcome environment for one invocation of `demo_tls_config_ctx`: for
each OpenSSL call the function makes, whether it succeeds, and which
handle a creation call returns (`none` = `NULL`). -/
structure CtxEnv where
  tls_client_method_ok : Bool
  tls_server_method_ok : Bool
  ssl_ctx_new : Option Nat
  set_min_proto_version_ok : Bool
  load_verify_locations_ok : Bool
  set_default_verify_paths_ok : Bool
  use_privatekey_file_ok : Bool
  use_certificate_file_ok : Bool
deriving DecidableEq, Repr

/-- One OpenSSL call performed by `demo_tls_config_ctx`, recorded in
source order (the two process-global init calls and the two `void`
verification-policy setters included). -/
inductive CtxCall where
  | loadErrorStrings
  | libraryInit
  | clientMethod
  | serverMethod
  | sslCtxNew
  | setMinProtoVersion
  | setVerify
  | setVerifyDepth (d : Nat)
  | loadVerifyLocations (path : String)
  | setDefaultVerifyPaths
  | usePrivateKeyFile (path : String)
  | useCertificateFile (path : String)
deriving DecidableEq, Repr

/-- `demo_tls_config_ctx(tlsconn)` embedded against a `CtxEnv`.  Mirrors
the C control flow: engine init, role-dependent method selection,
`SSL_CTX_new` (whose result is stored in `tlsconn->ctx` even when
`NULL`), minimum-protocol floor, mandatory verification with depth 5,
then trust anchors (custom `ca_cert_path` exclusively when set, default
verify paths otherwise), then the optional local private key and local
certificate loads.  Every failing call returns `-1` at once.  Returns
(return code, updated peer, ordered call trace). -/
def demo_tls_config_ctx (env : CtxEnv) (p : TLSPeer) :
    Int × TLSPeer × List CtxCall :=
  let t0 := [CtxCall.loadErrorStrings, CtxCall.libraryInit]
  let methodOk := if p.isClient then env.tls_client_method_ok else env.tls_server_method_ok
  let t1 := t0 ++ [if p.isClient then CtxCall.clientMethod else CtxCall.serverMethod]
  if ¬methodOk then
    (-1, p, t1)
  else
    let p1 : TLSPeer := { p with ctx := env.ssl_ctx_new }
    let t2 := t1 ++ [CtxCall.sslCtxNew]
    if env.ssl_ctx_new = none then
      (-1, p1, t2)
    else
      let t3 := t2 ++ [CtxCall.setMinProtoVersion]
      if ¬env.set_min_proto_version_ok then
        (-1, p1, t3)
      else
        let t4 := t3 ++ [CtxCall.setVerify, CtxCall.setVerifyDepth 5]
        match p1.ca_cert_path with
        | some capath =>
          let t5 := t4 ++ [CtxCall.loadVerifyLocations capath]
          if ¬env.load_verify_locations_ok then
            (-1, p1, t5)
          else
            match p1.local_key_path with
            | some keypath =>
              let t6 := t5 ++ [CtxCall.usePrivateKeyFile keypath]
              if ¬env.use_privatekey_file_ok then
                (-1, p1, t6)
              else
                match p1.local_cert_path with
                | some certpath =>
                  let t7 := t6 ++ [CtxCall.useCertificateFile certpath]
                  if ¬env.use_certificate_file_ok then (-1, p1, t7) else (0, p1, t7)
                | none => (0, p1, t6)
            | none =>
              match p1.local_cert_path with
              | some certpath =>
                let t6 := t5 ++ [CtxCall.useCertificateFile certpath]
                if ¬env.use_certificate_file_ok then (-1, p1, t6) else (0, p1, t6)
              | none => (0, p1, t5)
        | none =>
          let t5 := t4 ++ [CtxCall.setDefaultVerifyPaths]
          if ¬env.set_default_verify_paths_ok then
            (-1, p1, t5)
          else
            match p1.local_key_path with
            | some keypath =>
              let t6 := t5 ++ [CtxCall.usePrivateKeyFile keypath]
              if ¬env.use_privatekey_file_ok then
                (-1, p1, t6)
              else
                match p1.local_cert_path with
                | some certpath =>
                  let t7 := t6 ++ [CtxCall.useCertificateFile certpath]
                  if ¬env.use_certificate_file_ok then (-1, p1, t7) else (0, p1, t7)
                | none => (0, p1, t6)
            | none =>
              match p1.local_cert_path with
              | some certpath =>
                let t6 := t5 ++ [CtxCall.useCertificateFile certpath]
                if ¬env.use_certificate_file_ok then (-1, p1, t6) else (0, p1, t6)
              | none => (0, p1, t5)

/-- Outcome environment for one invocation of
`demo_tls_config_client_connect`. -/
structure ClientConnectEnv where
  bio_new_ssl_connect : Option Nat
  set_conn_port_ok : Bool
  set_conn_hostname_ok : Bool
  bio_get_ssl : Option Nat
  set_tlsext_host_name_ok : Bool
  set1_host_ok : Bool
deriving DecidableEq, Repr

/-- One OpenSSL call performed by `demo_tls_config_client_connect`. -/
inductive ClientCall where
  | newSslConnect
  | setConnPort
  | setConnHostname
  | getSsl
  | setTlsextHostName
  | set1Host
deriving DecidableEq, Repr

/-- `demo_tls_config_client_connect(tls_clnt)` embedded against a
`ClientConnectEnv`.  Mirrors the C control flow: the role check comes
first (before any OpenSSL call); the `BIO_new_ssl_connect` result is
stored in `tls_clnt->bio` immediately, and every later failing step
(`BIO_set_conn_port`, `BIO_set_conn_hostname`, `BIO_get_ssl`,
`SSL_set_tlsext_host_name`, `SSL_set1_host`) returns `-1` leaving that
stored chain in place.  Returns (return code, updated peer, call
trace). -/
def demo_tls_config_client_connect (env : ClientConnectEnv) (p : TLSPeer) :
    Int × TLSPeer × List ClientCall :=
  if ¬p.isClient then
    (-1, p, [])
  else
    let p1 : TLSPeer := { p with bio := env.bio_new_ssl_connect }
    let t1 := [ClientCall.newSslConnect]
    if env.bio_new_ssl_connect = none then
      (-1, p1, t1)
    else
      let t2 := t1 ++ [ClientCall.setConnPort]
      if ¬env.set_conn_port_ok then
        (-1, p1, t2)
      else
        let t3 := t2 ++ [ClientCall.setConnHostname]
        if ¬env.set_conn_hostname_ok then
          (-1, p1, t3)
        else
          let t4 := t3 ++ [ClientCall.getSsl]
          if env.bio_get_ssl = none then
            (-1, p1, t4)
          else
            let t5 := t4 ++ [ClientCall.setTlsextHostName]
            if ¬env.set_tlsext_host_name_ok then
              (-1, p1, t5)
            else
              let t6 := t5 ++ [ClientCall.set1Host]
              if ¬env.set1_host_ok then (-1, p1, t6) else (0, p1, t6)

/-- Outcome environment for one invocation of
`demo_tls_config_server_accept`. -/
structure ServerAcceptEnv where
  bio_new_ssl : Option Nat
  bio_get_ssl : Option Nat
  bio_new_accept : Option Nat
  bio_do_accept_ok : Bool
deriving DecidableEq, Repr

/-- One OpenSSL call performed by `demo_tls_config_server_accept`. -/
inductive ServerCall where
  | newSsl
  | getSsl
  | setMode
  | newAccept
  | setAcceptBios
  | doAccept
deriving DecidableEq, Repr

/-- `demo_tls_config_server_accept(tls_svr)` embedded against a
`ServerAcceptEnv`.  Mirrors the C control flow: role check first (before
any OpenSSL call); then `BIO_new_ssl` / `BIO_get_ssl` /
`SSL_set_mode(..., SSL_MODE_AUTO_RETRY)` / `BIO_new_accept` /
`BIO_set_accept_bios` / `BIO_do_accept`, each failure returning `-1`.
Unlike the client-connect path, `tls_svr->bio` is assigned (to the accept
chain) only after every step has succeeded, so the peer is unchanged on
every failure path.  Returns (return code, updated peer, call trace). -/
def demo_tls_config_server_accept (env : ServerAcceptEnv) (p : TLSPeer) :
    Int × TLSPeer × List ServerCall :=
  if p.isClient then
    (-1, p, [])
  else
    let t1 := [ServerCall.newSsl, ServerCall.getSsl]
    if env.bio_get_ssl = none then
      (-1, p, t1)
    else
      let t2 := t1 ++ [ServerCall.setMode, ServerCall.newAccept]
      if env.bio_new_accept = none then
        (-1, p, t2)
      else
        let t3 := t2 ++ [ServerCall.setAcceptBios, ServerCall.doAccept]
        if ¬env.bio_do_accept_ok then
          (-1, p, t3)
        else
          (0, { p with bio := env.bio_new_accept }, t3)

/-- `demo_tls_send_msg(socket_fd, msg)` embedded with the blocking-socket
write model (each `write` accepts all of its bytes).  Mirrors the C
control flow:

1. sizes of `0` or above `KMYTH_TLS_MAX_MSG_SIZE` are rejected before
   anything is written;
2. the 2-byte big-endian header (`htons`) is written first;
3. the `msg_size` body bytes are written second (the C call writes
   exactly `msg->hdr.msg_size` bytes out of `msg->body`, so the model is
   faithful for messages whose body holds exactly `msg_size` bytes — the
   struct's representation invariant).

Returns (result, bytes written to the transport). -/
def demo_tls_send_msg (msg : TLSMessage) : SendResult × List Nat :=
  if msg.hdr.msg_size > KMYTH_TLS_MAX_MSG_SIZE ∨ msg.hdr.msg_size = 0 then
    (.invalidMessageSize, [])
  else
    (.ok, htons_bytes msg.hdr.msg_size ++ msg.body)

/-! ## Helper lemmas -/

/-- Unfolding of `demo_tls_recv_msg` on a stream that holds at least the
two header bytes, stated for any `sz` equal to the decoded size. -/
theorem recv_msg_of_two_hdr_bytes (msg : TLSMessage) (b0 b1 sz : Nat) (rest : List Nat)
    (hsz : sz = b0 % 256 * 256 + b1 % 256) :
    demo_tls_recv_msg msg (b0 :: b1 :: rest) =
      if KMYTH_TLS_MAX_MSG_SIZE < sz then
        (.messageTooLarge, { msg with hdr := ⟨sz⟩ }, rest, [.readHdr 2 2])
      else if (rest.take sz).length = 0 then
        (.connectionClosed,
          ⟨⟨sz⟩, rest.take sz ++ List.replicate (sz - (rest.take sz).length) 0⟩,
          rest.drop sz, [.readHdr 2 2, .allocBody sz, .readBody sz (rest.take sz).length])
      else if (rest.take sz).length ≠ sz then
        (.shortBodyRead,
          ⟨⟨sz⟩, rest.take sz ++ List.replicate (sz - (rest.take sz).length) 0⟩,
          rest.drop sz, [.readHdr 2 2, .allocBody sz, .readBody sz (rest.take sz).length])
      else
        (.ok,
          ⟨⟨sz⟩, rest.take sz ++ List.replicate (sz - (rest.take sz).length) 0⟩,
          rest.drop sz, [.readHdr 2 2, .allocBody sz, .readBody sz (rest.take sz).length]) := by
  subst hsz
  simp [demo_tls_recv_msg]

/-! ## Claim theorems -/

/-- C1: for every message with length `L`, `0 < L ≤ KMYTH_TLS_MAX_MSG_SIZE`,
and a body of exactly `L` bytes, `demo_tls_send_msg` succeeds, emitting the
unsigned big-endian 16-bit header followed by the body, and
`demo_tls_recv_msg` run on the resulting byte stream succeeds, reproducing
the exact same length and the exact same body byte sequence. -/
theorem C1_send_recv_roundtrip (msg msg0 : TLSMessage)
    (h1 : 0 < msg.hdr.msg_size)
    (h2 : msg.hdr.msg_size ≤ KMYTH_TLS_MAX_MSG_SIZE)
    (h3 : msg.body.length = msg.hdr.msg_size) :
    (demo_tls_send_msg msg).1 = .ok ∧
    (demo_tls_send_msg msg).2 =
      msg.hdr.msg_size / 256 :: msg.hdr.msg_size % 256 :: msg.body ∧
    (demo_tls_recv_msg msg0 (demo_tls_send_msg msg).2).1 = .ok ∧
    (demo_tls_recv_msg msg0 (demo_tls_send_msg msg).2).2.1.hdr.msg_size =
      msg.hdr.msg_size ∧
    (demo_tls_recv_msg msg0 (demo_tls_send_msg msg).2).2.1.body = msg.body := by
  obtain ⟨⟨L⟩, body⟩ := msg
  simp only at h1 h2 h3
  have hlt : L < 65536 := lt_of_le_of_lt h2 (by decide)
  have hdiv : L / 256 % 256 = L / 256 := by omega
  have hsend : demo_tls_send_msg ⟨⟨L⟩, body⟩ = (.ok, L / 256 :: L % 256 :: body) := by
    simp only [demo_tls_send_msg, htons_bytes]
    rw [if_neg (by omega)]
    simp [hdiv]
  refine ⟨by simp [hsend], by simp [hsend], ?_⟩
  rw [hsend]
  simp only
  rw [recv_msg_of_two_hdr_bytes msg0 (L / 256) (L % 256) L body (by omega)]
  have htake : body.take L = body := by rw [← h3]; simp
  rw [if_neg (by omega)]
  rw [htake, h3]
  rw [if_neg (by omega), if_neg (by omega)]
  simp

/-- C1 witness: the round trip evaluated at a concrete 2-byte message. -/
theorem C1_send_recv_roundtrip_witness :
    0 < (2 : Nat) ∧ (2 : Nat) ≤ KMYTH_TLS_MAX_MSG_SIZE ∧
    ([10, 20] : List Nat).length = 2 ∧
    ((demo_tls_recv_msg ⟨⟨0⟩, []⟩ (demo_tls_send_msg ⟨⟨2⟩, [10, 20]⟩).2).1 = .ok ∧
      (demo_tls_recv_msg ⟨⟨0⟩, []⟩ (demo_tls_send_msg ⟨⟨2⟩, [10, 20]⟩).2).2.1.body =
        [10, 20]) := by
  refine ⟨by decide, by decide, by decide, ?_, ?_⟩
  · exact (C1_send_recv_roundtrip ⟨⟨2⟩, [10, 20]⟩ ⟨⟨0⟩, []⟩ (by decide) (by decide)
      (by decide)).2.2.1
  · exact (C1_send_recv_roundtrip ⟨⟨2⟩, [10, 20]⟩ ⟨⟨0⟩, []⟩ (by decide) (by decide)
      (by decide)).2.2.2.2

/-- C4: on a header whose decoded big-endian 16-bit value exceeds
`KMYTH_TLS_MAX_MSG_SIZE`, `demo_tls_recv_msg` fails with the
message-too-large diagnostic, its event trace holds only the header read
(no body allocation, no body read), the stream is advanced past the
header only, and the message body is untouched. -/
theorem C4_recv_oversize_no_body_read (msg : TLSMessage) (b0 b1 : Nat) (rest : List Nat)
    (h : KMYTH_TLS_MAX_MSG_SIZE < b0 % 256 * 256 + b1 % 256) :
    demo_tls_recv_msg msg (b0 :: b1 :: rest) =
      (.messageTooLarge, { msg with hdr := ⟨b0 % 256 * 256 + b1 % 256⟩ }, rest,
        [.readHdr 2 2]) := by
  rw [recv_msg_of_two_hdr_bytes msg b0 b1 _ rest rfl]
  rw [if_pos h]

/-- C4 witness: a `0xFFFF` header is rejected without body activity. -/
theorem C4_recv_oversize_no_body_read_witness :
    KMYTH_TLS_MAX_MSG_SIZE < 255 % 256 * 256 + 255 % 256 ∧
    demo_tls_recv_msg ⟨⟨0⟩, [9]⟩ [255, 255] =
      (.messageTooLarge, ⟨⟨65535⟩, [9]⟩, [], [.readHdr 2 2]) :=
  ⟨by decide, C4_recv_oversize_no_body_read ⟨⟨0⟩, [9]⟩ 255 255 [] (by decide)⟩

/-- C5: a message whose length field is `0` or exceeds
`KMYTH_TLS_MAX_MSG_SIZE` makes `demo_tls_send_msg` fail with the
invalid-message-size diagnostic with zero bytes written to the transport
(no header write, no body write). -/
theorem C5_send_invalid_size_writes_nothing (msg : TLSMessage)
    (h : msg.hdr.msg_size = 0 ∨ KMYTH_TLS_MAX_MSG_SIZE < msg.hdr.msg_size) :
    demo_tls_send_msg msg = (.invalidMessageSize, []) := by
  simp only [demo_tls_send_msg]
  rw [if_pos (by tauto)]

/-- C5 witness: sending a zero-length message writes nothing. -/
theorem C5_send_invalid_size_writes_nothing_witness :
    ((0 : Nat) = 0 ∨ KMYTH_TLS_MAX_MSG_SIZE < 0) ∧
    demo_tls_send_msg ⟨⟨0⟩, [1, 2]⟩ = (.invalidMessageSize, []) :=
  ⟨Or.inl rfl, C5_send_invalid_size_writes_nothing ⟨⟨0⟩, [1, 2]⟩ (Or.inl rfl)⟩

/-- C6: `demo_tls_recv_msg` reads the 2-byte header with a single read
call; when that read returns 0 bytes it fails with the closed-connection
diagnostic, and when it returns a nonzero count smaller than 2 it fails
with the distinct short-header diagnostic, so the two failure causes are
distinguishable. -/
theorem C6_recv_header_read_classification (msg : TLSMessage) (s : List Nat) :
    ((s.take 2).length = 0 → (demo_tls_recv_msg msg s).1 = .connectionClosed) ∧
    ((s.take 2).length = 1 → (demo_tls_recv_msg msg s).1 = .shortHeaderRead) ∧
    RecvResult.connectionClosed ≠ RecvResult.shortHeaderRead := by
  refine ⟨?_, ?_, by decide⟩
  · intro h
    match s with
    | [] => simp [demo_tls_recv_msg]
    | a :: t => simp [List.length_take] at h
  · intro h
    match s with
    | [] => simp at h
    | [a] => simp [demo_tls_recv_msg]
    | a :: b :: t => simp [List.length_take] at h

/-- C6 witness: both header-read failure classes evaluated on concrete
streams (the empty stream and a one-byte stream). -/
theorem C6_recv_header_read_classification_witness :
    ((([] : List Nat).take 2).length = 0 ∧
      (demo_tls_recv_msg ⟨⟨0⟩, []⟩ []).1 = .connectionClosed) ∧
    ((([7] : List Nat).take 2).length = 1 ∧
      (demo_tls_recv_msg ⟨⟨0⟩, []⟩ [7]).1 = .shortHeaderRead) :=
  ⟨⟨by decide, (C6_recv_header_read_classification ⟨⟨0⟩, []⟩ []).1 (by decide)⟩,
   ⟨by decide, (C6_recv_header_read_classification ⟨⟨0⟩, []⟩ [7]).2.1 (by decide)⟩⟩

/-- C9: whenever `demo_tls_recv_msg` succeeds, the returned message's
length is strictly positive and at most `KMYTH_TLS_MAX_MSG_SIZE`, and its
body holds exactly that many bytes; in particular a header declaring
length 0 never yields a successful receive (its zero-length body read
returns 0 bytes, the closed-connection failure). -/
theorem C9_recv_success_invariant (msg : TLSMessage) (s : List Nat)
    (h : (demo_tls_recv_msg msg s).1 = .ok) :
    0 < (demo_tls_recv_msg msg s).2.1.hdr.msg_size ∧
    (demo_tls_recv_msg msg s).2.1.hdr.msg_size ≤ KMYTH_TLS_MAX_MSG_SIZE ∧
    (demo_tls_recv_msg msg s).2.1.body.length =
      (demo_tls_recv_msg msg s).2.1.hdr.msg_size := by
  match s with
  | [] => simp [demo_tls_recv_msg] at h
  | [a] => simp [demo_tls_recv_msg] at h
  | b0 :: b1 :: t =>
    rw [recv_msg_of_two_hdr_bytes msg b0 b1 _ t rfl] at h ⊢
    by_cases hbig : KMYTH_TLS_MAX_MSG_SIZE < b0 % 256 * 256 + b1 % 256
    · rw [if_pos hbig] at h
      exact absurd h (by simp)
    · rw [if_neg hbig] at h ⊢
      by_cases hzero : (List.take (b0 % 256 * 256 + b1 % 256) t).length = 0
      · rw [if_pos hzero] at h
        exact absurd h (by simp)
      · rw [if_neg hzero] at h ⊢
        by_cases hne :
            (List.take (b0 % 256 * 256 + b1 % 256) t).length ≠ b0 % 256 * 256 + b1 % 256
        · rw [if_pos hne] at h
          exact absurd h (by simp)
        · rw [if_neg hne] at h ⊢
          refine ⟨?_, ?_, ?_⟩
          · show 0 < b0 % 256 * 256 + b1 % 256
            omega
          · show b0 % 256 * 256 + b1 % 256 ≤ KMYTH_TLS_MAX_MSG_SIZE
            omega
          · show (List.take (b0 % 256 * 256 + b1 % 256) t ++
                List.replicate (b0 % 256 * 256 + b1 % 256 -
                  (List.take (b0 % 256 * 256 + b1 % 256) t).length) 0).length =
              b0 % 256 * 256 + b1 % 256
            simp only [List.length_append, List.length_replicate]
            omega

/-- C9 witness: a successful concrete receive satisfies the invariant. -/
theorem C9_recv_success_invariant_witness :
    (demo_tls_recv_msg ⟨⟨0⟩, []⟩ [0, 1, 42]).1 = .ok ∧
    (0 < (demo_tls_recv_msg ⟨⟨0⟩, []⟩ [0, 1, 42]).2.1.hdr.msg_size ∧
      (demo_tls_recv_msg ⟨⟨0⟩, []⟩ [0, 1, 42]).2.1.hdr.msg_size ≤
        KMYTH_TLS_MAX_MSG_SIZE ∧
      (demo_tls_recv_msg ⟨⟨0⟩, []⟩ [0, 1, 42]).2.1.body.length =
        (demo_tls_recv_msg ⟨⟨0⟩, []⟩ [0, 1, 42]).2.1.hdr.msg_size) :=
  ⟨by decide, C9_recv_success_invariant ⟨⟨0⟩, []⟩ [0, 1, 42] (by decide)⟩

/-- C10: when `demo_tls_recv_msg` fails after the header was fully read,
the caller's message record is left mutated rather than restored: the
header length field holds the decoded value (also on the over-ceiling
rejection, where the body stays untouched), and on a body-read failure
the body field holds the freshly `calloc`ed buffer containing whatever
bytes the short read delivered followed by the allocation's zero fill. -/
theorem C10_recv_not_atomic_on_error (msg : TLSMessage) (b0 b1 : Nat) (t : List Nat) :
    (KMYTH_TLS_MAX_MSG_SIZE < b0 % 256 * 256 + b1 % 256 →
      (demo_tls_recv_msg msg (b0 :: b1 :: t)).1 = .messageTooLarge ∧
      (demo_tls_recv_msg msg (b0 :: b1 :: t)).2.1 =
        { msg with hdr := ⟨b0 % 256 * 256 + b1 % 256⟩ }) ∧
    (b0 % 256 * 256 + b1 % 256 ≤ KMYTH_TLS_MAX_MSG_SIZE →
      (t.take (b0 % 256 * 256 + b1 % 256)).length < b0 % 256 * 256 + b1 % 256 →
      (demo_tls_recv_msg msg (b0 :: b1 :: t)).1 ≠ .ok ∧
      (demo_tls_recv_msg msg (b0 :: b1 :: t)).2.1 =
        ⟨⟨b0 % 256 * 256 + b1 % 256⟩,
          t.take (b0 % 256 * 256 + b1 % 256) ++
            List.replicate
              (b0 % 256 * 256 + b1 % 256 - (t.take (b0 % 256 * 256 + b1 % 256)).length)
              0⟩) := by
  rw [recv_msg_of_two_hdr_bytes msg b0 b1 _ t rfl]
  constructor
  · intro hbig
    rw [if_pos hbig]
    exact ⟨rfl, rfl⟩
  · intro hle hshort
    rw [if_neg (by omega)]
    split_ifs with hzero hne
    · exact ⟨by simp, rfl⟩
    · exact ⟨by simp, rfl⟩
    · omega

/-- C10 witness: both failure-after-header shapes evaluated concretely —
an oversize header leaves the decoded length in place, and a short body
read leaves the freshly allocated, zero-padded buffer in place. -/
theorem C10_recv_not_atomic_on_error_witness :
    (KMYTH_TLS_MAX_MSG_SIZE < 255 % 256 * 256 + 254 % 256 ∧
      (demo_tls_recv_msg ⟨⟨0⟩, [9]⟩ [255, 254]).2.1 = ⟨⟨65534⟩, [9]⟩) ∧
    ((0 % 256 * 256 + 3 % 256 ≤ KMYTH_TLS_MAX_MSG_SIZE ∧
        (([5] : List Nat).take (0 % 256 * 256 + 3 % 256)).length <
          0 % 256 * 256 + 3 % 256) ∧
      (demo_tls_recv_msg ⟨⟨0⟩, [9]⟩ [0, 3, 5]).1 ≠ .ok ∧
      (demo_tls_recv_msg ⟨⟨0⟩, [9]⟩ [0, 3, 5]).2.1 = ⟨⟨3⟩, [5, 0, 0]⟩) := by
  refine ⟨⟨by decide, ?_⟩, ⟨by decide, ?_, ?_⟩⟩
  · exact ((C10_recv_not_atomic_on_error ⟨⟨0⟩, [9]⟩ 255 254 []).1 (by decide)).2
  · exact ((C10_recv_not_atomic_on_error ⟨⟨0⟩, [9]⟩ 0 3 [5]).2 (by decide) (by decide)).1
  · exact ((C10_recv_not_atomic_on_error ⟨⟨0⟩, [9]⟩ 0 3 [5]).2 (by decide) (by decide)).2

/-- C2 counterexample: the claim says `demo_tls_cleanup` leaves the peer
in a blank Client-role state, but on this concrete peer the final state is
`demo_tls_init false` — the blank Server-role state (`isClient = false`),
not the blank Client-role state `demo_tls_init true`. -/
theorem C2_cleanup_counterexample :
    (demo_tls_cleanup
        ⟨true, some 3, some 4, some "h", some "p", some "c", some "k", some "l"⟩).2 ≠
      demo_tls_init true ∧
    (demo_tls_cleanup
        ⟨true, some 3, some 4, some "h", some "p", some "c", some "k", some "l"⟩).2 =
      demo_tls_init false := by
  constructor <;> decide

/-- C2 (amended): `demo_tls_cleanup` releases the transport handle if
present, the context handle if present, and each owned string (host,
port, CA certificate path, local key path, local certificate path) if
present — each exactly once, in that order — and leaves the peer in the
blank Server-role state `demo_tls_init false` (all fields zeroed,
`isClient = false`), not a Client-role state. -/
theorem C2_cleanup_releases_and_reinits (p : TLSPeer) :
    demo_tls_cleanup p =
      ((p.bio.map Freed.bio).toList ++ (p.ctx.map Freed.ctx).toList ++
        (p.host.map Freed.host).toList ++ (p.port.map Freed.port).toList ++
        (p.ca_cert_path.map Freed.caCert).toList ++
        (p.local_key_path.map Freed.localKey).toList ++
        (p.local_cert_path.map Freed.localCert).toList,
        demo_tls_init false) := by
  obtain ⟨pc, pb, px, ph, pp, pca, pk, pce⟩ := p
  cases pb <;> cases px <;> cases ph <;> cases pp <;> cases pca <;> cases pk <;>
    cases pce <;> rfl

/-- C3 counterexample: the claim says a failed connection-establishment
configuration call leaves the peer's transport field unchanged, but when
`BIO_new_ssl_connect` succeeds (handle 7) and `BIO_set_conn_port` then
fails, `demo_tls_config_client_connect` returns failure with the peer's
transport field now holding the new, partially configured chain. -/
theorem C3_client_connect_counterexample :
    (demo_tls_config_client_connect ⟨some 7, false, true, some 1, true, true⟩
        ⟨true, none, some 2, some "h", some "p", none, none, none⟩).1 = -1 ∧
    (demo_tls_config_client_connect ⟨some 7, false, true, some 1, true, true⟩
        ⟨true, none, some 2, some "h", some "p", none, none, none⟩).2.1.bio ≠
      (⟨true, none, some 2, some "h", some "p", none, none, none⟩ : TLSPeer).bio := by
  constructor <;> decide

/-- C3 (amended): `demo_tls_config_server_accept` satisfies the claim —
whenever it fails the peer is unchanged (the accept chain is stored only
after every step succeeded).  `demo_tls_config_client_connect` leaves the
peer unchanged only on the role-mismatch failure; once past the role
check it stores the `BIO_new_ssl_connect` result in the transport field
immediately, so any later configuration failure leaves that new
(`NULL` or partially configured) handle in the peer. -/
theorem C3_transport_field_discipline (envc : ClientConnectEnv) (envs : ServerAcceptEnv)
    (p q : TLSPeer) :
    ((demo_tls_config_server_accept envs p).1 = -1 →
      (demo_tls_config_server_accept envs p).2.1 = p) ∧
    (q.isClient = false → demo_tls_config_client_connect envc q = (-1, q, [])) ∧
    (q.isClient = true →
      (demo_tls_config_client_connect envc q).2.1 =
        { q with bio := envc.bio_new_ssl_connect }) := by
  refine ⟨?_, ?_, ?_⟩
  · obtain ⟨g1, g2, g3, g4⟩ := envs
    obtain ⟨pc, pb, px, ph, pp, pca, pk, pce⟩ := p
    cases pc <;> cases g2 <;> cases g3 <;> cases g4 <;>
      simp [demo_tls_config_server_accept]
  · intro hq
    simp [demo_tls_config_client_connect, hq]
  · intro hq
    obtain ⟨e1, e2, e3, e4, e5, e6⟩ := envc
    cases e1 <;> cases e2 <;> cases e3 <;> cases e4 <;> cases e5 <;> cases e6 <;>
      simp [demo_tls_config_client_connect, hq]

/-- C3 witness: the three amended facts evaluated concretely — a failed
server accept (its `BIO_do_accept` fails) leaves the peer unchanged, a
role-mismatched client connect changes nothing, and a client connect past
the role check stores the new chain handle. -/
theorem C3_transport_field_discipline_witness :
    ((demo_tls_config_server_accept ⟨some 1, some 2, some 3, false⟩
        ⟨false, some 9, none, none, some "4444", none, none, none⟩).1 = -1 ∧
      (demo_tls_config_server_accept ⟨some 1, some 2, some 3, false⟩
        ⟨false, some 9, none, none, some "4444", none, none, none⟩).2.1 =
        ⟨false, some 9, none, none, some "4444", none, none, none⟩) ∧
    ((⟨false, none, none, none, none, none, none, none⟩ : TLSPeer).isClient = false ∧
      demo_tls_config_client_connect ⟨some 7, true, true, some 1, true, true⟩
        ⟨false, none, none, none, none, none, none, none⟩ =
        (-1, ⟨false, none, none, none, none, none, none, none⟩, [])) ∧
    ((⟨true, none, some 2, some "h", some "p", none, none, none⟩ : TLSPeer).isClient =
        true ∧
      (demo_tls_config_client_connect ⟨some 7, false, true, some 1, true, true⟩
        ⟨true, none, some 2, some "h", some "p", none, none, none⟩).2.1 =
        ⟨true, some 7, some 2, some "h", some "p", none, none, none⟩) := by
  refine ⟨⟨by decide, ?_⟩, ⟨by decide, ?_⟩, ⟨by decide, ?_⟩⟩
  · exact (C3_transport_field_discipline ⟨some 7, true, true, some 1, true, true⟩
      ⟨some 1, some 2, some 3, false⟩
      ⟨false, some 9, none, none, some "4444", none, none, none⟩
      ⟨false, none, none, none, none, none, none, none⟩).1 (by decide)
  · exact (C3_transport_field_discipline ⟨some 7, true, true, some 1, true, true⟩
      ⟨some 1, some 2, some 3, false⟩
      ⟨false, some 9, none, none, some "4444", none, none, none⟩
      ⟨false, none, none, none, none, none, none, none⟩).2.1 (by decide)
  · exact (C3_transport_field_discipline ⟨some 7, false, true, some 1, true, true⟩
      ⟨some 1, some 2, some 3, false⟩
      ⟨false, some 9, none, none, some "4444", none, none, none⟩
      ⟨true, none, some 2, some "h", some "p", none, none, none⟩).2.2 (by decide)

/-- C7: on a Server-role peer `demo_tls_config_client_connect` fails with
the role-mismatch diagnostic, the peer unchanged and the OpenSSL call
trace empty (no transport or network operation performed); symmetrically,
on a Client-role peer `demo_tls_config_server_accept` fails the same
way. -/
theorem C7_role_mismatch_no_io (envc : ClientConnectEnv) (envs : ServerAcceptEnv)
    (p : TLSPeer) :
    (p.isClient = false → demo_tls_config_client_connect envc p = (-1, p, [])) ∧
    (p.isClient = true → demo_tls_config_server_accept envs p = (-1, p, [])) := by
  constructor <;> intro h <;>
    simp [demo_tls_config_client_connect, demo_tls_config_server_accept, h]

/-- C7 witness: both role-mismatch rejections evaluated on concrete
peers and environments. -/
theorem C7_role_mismatch_no_io_witness :
    ((⟨false, none, none, none, none, none, none, none⟩ : TLSPeer).isClient = false ∧
      demo_tls_config_client_connect ⟨some 7, true, true, some 1, true, true⟩
        ⟨false, none, none, none, none, none, none, none⟩ =
        (-1, ⟨false, none, none, none, none, none, none, none⟩, [])) ∧
    ((⟨true, none, none, none, none, none, none, none⟩ : TLSPeer).isClient = true ∧
      demo_tls_config_server_accept ⟨some 1, some 2, some 3, true⟩
        ⟨true, none, none, none, none, none, none, none⟩ =
        (-1, ⟨true, none, none, none, none, none, none, none⟩, [])) :=
  ⟨⟨by decide, (C7_role_mismatch_no_io ⟨some 7, true, true, some 1, true, true⟩
      ⟨some 1, some 2, some 3, true⟩
      ⟨false, none, none, none, none, none, none, none⟩).1 (by decide)⟩,
   ⟨by decide, (C7_role_mismatch_no_io ⟨some 7, true, true, some 1, true, true⟩
      ⟨some 1, some 2, some 3, true⟩
      ⟨true, none, none, none, none, none, none, none⟩).2 (by decide)⟩⟩

set_option maxHeartbeats 2000000 in
/-- C8: provided `demo_tls_config_ctx` gets past method selection, context
creation and the protocol floor, it loads trust anchors exclusively from
the custom CA path when one is configured (the default trust store is not
consulted), loads the platform default trust store exactly when no custom
path is configured, and when the attempted load fails it returns `-1`
without executing the local key or local certificate loading steps. -/
theorem C8_ctx_trust_anchor_exclusivity (env : CtxEnv) (p : TLSPeer)
    (hm : (if p.isClient then env.tls_client_method_ok else env.tls_server_method_ok) =
      true)
    (hc : env.ssl_ctx_new ≠ none)
    (hv : env.set_min_proto_version_ok = true) :
    (∀ a, p.ca_cert_path = some a →
      CtxCall.setDefaultVerifyPaths ∉ (demo_tls_config_ctx env p).2.2 ∧
      CtxCall.loadVerifyLocations a ∈ (demo_tls_config_ctx env p).2.2) ∧
    (p.ca_cert_path = none →
      CtxCall.setDefaultVerifyPaths ∈ (demo_tls_config_ctx env p).2.2 ∧
      ∀ a, CtxCall.loadVerifyLocations a ∉ (demo_tls_config_ctx env p).2.2) ∧
    ((p.ca_cert_path ≠ none → env.load_verify_locations_ok = false) →
      (p.ca_cert_path = none → env.set_default_verify_paths_ok = false) →
      (demo_tls_config_ctx env p).1 = -1 ∧
      (∀ a, CtxCall.usePrivateKeyFile a ∉ (demo_tls_config_ctx env p).2.2) ∧
      (∀ a, CtxCall.useCertificateFile a ∉ (demo_tls_config_ctx env p).2.2)) := by
  obtain ⟨cm, sm, cx, mp, lv, dv, upk, ucf⟩ := env
  obtain ⟨pc, pb, px, ph, pp, pca, pk, pce⟩ := p
  cases cx with
  | none => exact absurd rfl hc
  | some c =>
    simp only at hm hv
    cases pc <;> cases pca <;> cases pk <;> cases pce <;> cases lv <;> cases dv <;>
      cases upk <;> cases ucf <;>
      simp_all [demo_tls_config_ctx]

/-- C8 witness: a client peer with a custom CA path whose load fails —
the default store is never consulted, the custom path is attempted, the
call fails, and neither the key nor the certificate load step runs. -/
theorem C8_ctx_trust_anchor_exclusivity_witness :
    ((if (⟨true, none, none, none, none, some "ca", some "k", some "c"⟩ :
        TLSPeer).isClient
      then (⟨true, true, some 5, true, false, true, true, true⟩ : CtxEnv).tls_client_method_ok
      else (⟨true, true, some 5, true, false, true, true, true⟩ :
        CtxEnv).tls_server_method_ok) = true) ∧
    (⟨true, true, some 5, true, false, true, true, true⟩ : CtxEnv).ssl_ctx_new ≠ none ∧
    (⟨true, true, some 5, true, false, true, true, true⟩ :
      CtxEnv).set_min_proto_version_ok = true ∧
    CtxCall.setDefaultVerifyPaths ∉
      (demo_tls_config_ctx ⟨true, true, some 5, true, false, true, true, true⟩
        ⟨true, none, none, none, none, some "ca", some "k", some "c"⟩).2.2 ∧
    CtxCall.loadVerifyLocations "ca" ∈
      (demo_tls_config_ctx ⟨true, true, some 5, true, false, true, true, true⟩
        ⟨true, none, none, none, none, some "ca", some "k", some "c"⟩).2.2 ∧
    (demo_tls_config_ctx ⟨true, true, some 5, true, false, true, true, true⟩
      ⟨true, none, none, none, none, some "ca", some "k", some "c"⟩).1 = -1 ∧
    CtxCall.usePrivateKeyFile "k" ∉
      (demo_tls_config_ctx ⟨true, true, some 5, true, false, true, true, true⟩
        ⟨true, none, none, none, none, some "ca", some "k", some "c"⟩).2.2 ∧
    CtxCall.useCertificateFile "c" ∉
      (demo_tls_config_ctx ⟨true, true, some 5, true, false, true, true, true⟩
        ⟨true, none, none, none, none, some "ca", some "k", some "c"⟩).2.2 := by
  refine ⟨by decide, by decide, by decide, ?_, ?_, ?_, ?_, ?_⟩
  · exact ((C8_ctx_trust_anchor_exclusivity
      ⟨true, true, some 5, true, false, true, true, true⟩
      ⟨true, none, none, none, none, some "ca", some "k", some "c"⟩
      (by decide) (by decide) (by decide)).1 "ca" rfl).1
  · exact ((C8_ctx_trust_anchor_exclusivity
      ⟨true, true, some 5, true, false, true, true, true⟩
      ⟨true, none, none, none, none, some "ca", some "k", some "c"⟩
      (by decide) (by decide) (by decide)).1 "ca" rfl).2
  · exact ((C8_ctx_trust_anchor_exclusivity
      ⟨true, true, some 5, true, false, true, true, true⟩
      ⟨true, none, none, none, none, some "ca", some "k", some "c"⟩
      (by decide) (by decide) (by decide)).2.2 (fun _ => rfl)
      (fun hn => absurd hn (by decide))).1
  · exact ((C8_ctx_trust_anchor_exclusivity
      ⟨true, true, some 5, true, false, true, true, true⟩
      ⟨true, none, none, none, none, some "ca", some "k", some "c"⟩
      (by decide) (by decide) (by decide)).2.2 (fun _ => rfl)
      (fun hn => absurd hn (by decide))).2.1 "k"
  · exact ((C8_ctx_trust_anchor_exclusivity
      ⟨true, true, some 5, true, false, true, true, true⟩
      ⟨true, none, none, none, none, some "ca", some "k", some "c"⟩
      (by decide) (by decide) (by decide)).2.2 (fun _ => rfl)
      (fun hn => absurd hn (by decide))).2.2 "c"

end KmythTls
